import Mathlib

/-!
Verification of the PhotoLog event-photo-sharing backend.

This file gives a shallow embedding of the authorization / moderation /
quota subsystem of the backend (routers `events.py`, `photos.py`,
`public.py` and the crud helpers) and proves the behavioural claims made
by the specification against it.

The database is modelled as explicit state (lists of rows); SQLAlchemy
queries become list operations, HTTP exceptions become an error type,
and the external collaborators (CDN upload, e-mail dispatch, clock,
id generation) become explicit parameters.  Machine integers are
modelled as `Int`/`Nat` (Python integers are unbounded, so no overflow
modelling is needed).  Logging calls have no observable effect on any
claim and are not modelled.
-/

set_option maxRecDepth 8000

namespace PhotoLog

/-! ## Python-level primitives -/

/-- Checker for the digit core of a Python integer literal: digits with
single underscores allowed only between digits (`int("1_0") = 10`,
`int("1__0")` and `int("1_")` fail).  The caller separately requires the
first character to be a digit. -/
def pyDigitsCore : List Char → Bool
  | [] => true
  | c :: rest =>
    if c == '_' then
      match rest with
      | [] => false
      | d :: _ => d.isDigit && pyDigitsCore rest
    else c.isDigit && pyDigitsCore rest

/-- Value of a valid digit-and-underscore run, as accepted by Python
`int`; `none` if the run is empty or malformed. -/
def pyNatOfDigits (cs : List Char) : Option Nat :=
  match cs with
  | [] => none
  | c :: _ =>
    if c.isDigit && pyDigitsCore cs then
      some (cs.foldl (fun acc ch => if ch == '_' then acc else acc * 10 + (ch.toNat - 48)) 0)
    else none

/-- Python `str.strip()` of surrounding whitespace, as a character list. -/
def pyStrip (s : String) : List Char :=
  ((s.toList.dropWhile Char.isWhitespace).reverse.dropWhile Char.isWhitespace).reverse

/-- Python `int(s)` on a string: strip whitespace, optional sign, digit
run with underscores; `none` models `ValueError`. -/
def pyInt (s : String) : Option Int :=
  match pyStrip s with
  | '+' :: rest => (pyNatOfDigits rest).map (fun n => (n : Int))
  | '-' :: rest => (pyNatOfDigits rest).map (fun n => -(n : Int))
  | cs => (pyNatOfDigits cs).map (fun n => (n : Int))

/-- Python truthiness of an optional string column value: `None` and the
empty string are falsy (`if not event.password`, `if photo.uploaded_by`). -/
def pyTruthy : Option String → Bool
  | none => false
  | some s => s != ""

/-- Python `s.startswith(pre)` (kernel-reducible form of
`String.startsWith`). -/
def pyStartsWith (s pre : String) : Bool := pre.toList.isPrefixOf s.toList

/-- Modelled from the spec: the database engine's `CAST(text AS INTEGER)`
used by `get_user_upload_size` (`app/database.py`, which configures the
engine, is not present under `src/`).  Per the spec, sizes parseable as
integers are summed and "unparseable or absent sizes contribute zero,
never raise", so the cast is parse-or-zero. -/
def sqlCastInt (s : String) : Int := (pyInt s).getD 0

/-- Replace the first element satisfying `q` (the row object returned by
`.first()`, mutated in place by SQLAlchemy) with `new`. -/
def updateFirst (q : α → Bool) (new : α) : List α → List α
  | [] => []
  | x :: xs => if q x then new :: xs else x :: updateFirst q new xs

/-- Models Python `round(bytes / (1024*1024*1024), 2)` as exact-rational
rounding half-to-even, returned in hundredths of a GiB (binary
floating-point representation effects are not modelled). -/
def round2GiBHundredths (bytes : Int) : Int :=
  let n : Int := bytes * 100
  let d : Int := 1073741824
  let q : Int := Int.fdiv n d
  let r : Int := n - q * d
  if 2 * r < d then q else if d < 2 * r then q + 1 else if q % 2 = 0 then q else q + 1

/-! ## Data model

The SQLAlchemy ORM classes for `User` and `Photo` are referenced by the
routers and crud helpers but their defining module bodies are not under
`src/` (`src/app/models/user.py` and `src/app/models/photo.py` hold only
the Pydantic request/response models).  Their columns are therefore
modelled from the spec, section 3 (DATA MODEL); the `Event` ORM columns
come from `src/app/models/event.py` plus the two cover columns the spec
and `events.py` use. -/

/-- Modelled from the spec: the `User` ORM row.
`{id (external subject, stable once created), email (unique business
key), name (optional), avatar_file_size (optional, stored as text)}`.
`id` is the primary key (it is the target of
`ForeignKey("users.id")` in `src/app/models/event.py`). -/
structure User where
  id : String
  email : String
  name : Option String
  avatar_file_size : Option String
deriving Repr, DecidableEq

/-- The `Event` ORM row (`src/app/models/event.py`); `cover_thumbnail_url`
and `cover_image_file_size` are the columns written by
`upload_event_cover_image` and described by the spec (stored as text). -/
structure Event where
  id : String
  host_id : String
  name : String
  description : Option String
  date : Nat
  password : Option String
  cover_image_url : Option String
  cover_thumbnail_url : Option String
  cover_image_file_size : Option String
  is_active : Bool
  is_archived : Bool
  created_at : Nat
  updated_at : Option Nat
deriving Repr, DecidableEq

/-- Modelled from the spec: the `Photo` ORM row.
`{id, event_id, url, thumbnail_url, caption (optional), approved
(boolean, default false), uploaded_at, uploaded_by (nullable),
file_size}` (file size stored as text). -/
structure Photo where
  id : String
  event_id : String
  url : String
  thumbnail_url : Option String
  caption : Option String
  approved : Bool
  uploaded_at : Nat
  uploaded_by : Option String
  file_size : Option String
deriving Repr, DecidableEq

/-- The relational store: one list of rows per table. -/
structure DB where
  users : List User
  events : List Event
  photos : List Photo
deriving Repr, DecidableEq

/-- HTTP-level failure, by status (detail strings are abstracted away,
except for the structured content of the 413 quota message: the current
usage rounded to two-decimal GiB and the 1 GB ceiling it reports). -/
inductive Http where
  | notFound
  | forbidden
  | badRequest
  | unauthorized
  | payloadTooLarge (currentGiBHundredths : Int) (maxGB : Nat)
  | internalError
  | unprocessableEntity
deriving Repr, DecidableEq

/-- Database-level failure out of `db.commit()`. -/
inductive DbError where
  | integrityError
deriving Repr, DecidableEq

deriving instance DecidableEq for Except

/-- A dispatched moderation e-mail (`app/services/email.py` is not under
`src/`; the two calls in `update_photo` fix the shape: an approved
variant carrying recipient, event name and photo url, and a rejected
variant carrying recipient and event name). -/
inductive Notification where
  | approvedEmail (user_email : String) (event_name : String) (photo_url : String)
  | rejectedEmail (user_email : String) (event_name : String)
deriving Repr, DecidableEq

/-- The verified token subject handed to the routers by
`get_current_user` (`uid`, `email`, optional `name`). -/
structure UserInfo where
  uid : String
  email : String
  name : Option String
deriving Repr, DecidableEq

/-- `UpdatePhotoRequest` with `exclude_unset` merge-patch semantics: the
outer `Option` is field presence in the payload.  The `approved` column
is a (spec-modelled) non-null boolean, so a present `approved` field
carries a `Bool`. -/
structure UpdatePhotoRequest where
  caption : Option (Option String)
  approved : Option Bool
deriving Repr, DecidableEq

/-- `BulkActionRequest` (`src/app/models/event.py`). -/
structure BulkActionRequest where
  event_ids : List String
  action : String
deriving Repr, DecidableEq

/-- `PublicEventResponse` (`src/app/models/event.py`): the public-safe
projection.  It carries no `password` and no `host_id` field, only the
boolean `has_password`. -/
structure PublicEventResponse where
  id : String
  name : String
  description : Option String
  date : Nat
  cover_image_url : Option String
  has_password : Bool
  photo_count : Nat
  is_active : Bool
deriving Repr, DecidableEq

/-- `EventResponse` (`src/app/models/event.py`); extra constructor kwargs
passed by `event_to_response` that the Pydantic model does not declare
(cover thumbnail and size) are ignored by Pydantic and thus absent. -/
structure EventResponse where
  id : String
  host_id : String
  name : String
  description : Option String
  date : Nat
  password : Option String
  cover_image_url : Option String
  created_at : Nat
  updated_at : Nat
  is_active : Bool
  is_archived : Bool
  photo_count : Nat
  share_link : Option String
deriving Repr, DecidableEq

/-- `EventListResponse` (`src/app/models/event.py`). -/
structure EventListResponse where
  events : List EventResponse
  total : Nat
  page : Nat
  page_size : Nat
  has_more : Bool
deriving Repr, DecidableEq

/-- `PhotoListResponse` (`src/app/models/photo.py`); the per-photo
`PhotoResponse` projection drops no field a claim mentions, so rows are
kept as `Photo`. -/
structure PhotoListResponse where
  photos : List Photo
  total : Nat
  page : Nat
  page_size : Nat
  has_more : Bool
deriving Repr, DecidableEq

/-- Result of the external CDN upload (`app/services/cloudinary.py`),
abstracted: `none` models a failed upload or a result without
`secure_url`. -/
structure UploadResult where
  secure_url : String
  public_id : String
deriving Repr, DecidableEq

/-! ## crud helpers (`src/app/crud.py`) -/

/-- `crud.get_or_create_user`: resolve a verified subject.  Looks up by
email; if found, logs (not modelled) a warning when the stored id
differs and refreshes the name exactly when the incoming name is
non-null and differs; otherwise inserts a new row keyed by the external
id and returns the first row found by `User.id == new_user.id`.
`db.commit()` of the insert raises `IntegrityError` when the new primary
key `id` is already taken (the guard branch; primary-key uniqueness of
`users.id` is forced by `ForeignKey("users.id")` in
`src/app/models/event.py`), in which case the transaction is rolled
back. -/
def get_or_create_user (db : DB) (info : UserInfo) : DB × Except DbError User :=
  match db.users.find? (fun u => u.email == info.email) with
  | some u =>
    if u.name ≠ info.name ∧ info.name.isSome then
      let u' : User := { u with name := info.name }
      ({ db with users := updateFirst (fun x => x.email == info.email) u' db.users }, .ok u')
    else
      (db, .ok u)
  | none =>
    if db.users.any (fun u => u.id == info.uid) then
      (db, .error .integrityError)
    else
      let nu : User := ⟨info.uid, info.email, info.name, none⟩
      let db' : DB := { db with users := db.users ++ [nu] }
      (db', .ok ((db'.users.find? (fun u => u.id == info.uid)).getD nu))

/-- Photo part of `crud.get_user_upload_size`:
`SUM(CAST(photos.file_size AS INTEGER)) WHERE uploaded_by = user_id`.
SQL `NULL` sizes are skipped by `SUM`; a `NULL` `uploaded_by` never
equals `user_id`. -/
def photoSizeSum (db : DB) (user_id : String) : Int :=
  (((db.photos.filter (fun p => p.uploaded_by == some user_id)).filterMap
    Photo.file_size).map sqlCastInt).sum

/-- Event-cover part of `crud.get_user_upload_size`:
`SUM(CAST(events.cover_image_file_size AS INTEGER))` joined to `users`
on the host relationship and filtered by `users.id == user_id` — each
event row contributes once per matching joined user row. -/
def eventCoverSizeSum (db : DB) (user_id : String) : Int :=
  (db.events.map (fun e =>
    ((db.users.filter (fun u => u.id == e.host_id && u.id == user_id)).length : Int) *
      ((e.cover_image_file_size.map sqlCastInt).getD 0))).sum

/-- Avatar part of `crud.get_user_upload_size`:
`if user and user.avatar_file_size: try int(...) except: pass`. -/
def avatarSize (db : DB) (user_id : String) : Int :=
  match db.users.find? (fun u => u.id == user_id) with
  | none => 0
  | some u =>
    match u.avatar_file_size with
    | none => 0
    | some s => if s == "" then 0 else (pyInt s).getD 0

/-- `crud.get_user_upload_size`: total upload size for a user in bytes.
(`if photo_size:` / `if event_cover_size:` skip falsy partial sums,
which is the same as adding zero.) -/
def get_user_upload_size (db : DB) (user_id : String) : Int :=
  photoSizeSum db user_id + eventCoverSizeSum db user_id + avatarSize db user_id

/-! ## Event helpers (`src/app/routers/events.py`) -/

/-- `events.verify_event_ownership`: 404 when the event id is unknown,
403 when the caller is not the host. -/
def verify_event_ownership (db : DB) (event_id user_id : String) : Except Http Event :=
  match db.events.find? (fun e => e.id == event_id) with
  | none => .error .notFound
  | some e => if e.host_id != user_id then .error .forbidden else .ok e

/-- `settings.frontend_url` default from `src/app/config.py`. -/
def frontend_url : String := "http://localhost:5173"

/-- Python `s.rstrip(c)` for a single strip character. -/
def pyRstrip (s : String) (c : Char) : String :=
  ⟨(s.toList.reverse.dropWhile (fun x => x == c)).reverse⟩

/-- `events.generate_share_link`. -/
def generate_share_link (event_id : String) : String :=
  pyRstrip frontend_url '/' ++ "/event/" ++ event_id

/-- `events.event_to_response` in the `db`-supplied case used by the
listing endpoints: counts all photos of the event and falls back to
`created_at` when `updated_at` is null. -/
def event_to_response (db : DB) (e : Event) : EventResponse :=
  { id := e.id
    host_id := e.host_id
    name := e.name
    description := e.description
    date := e.date
    password := e.password
    cover_image_url := e.cover_image_url
    created_at := e.created_at
    updated_at := e.updated_at.getD e.created_at
    is_active := e.is_active
    is_archived := e.is_archived
    photo_count := (db.photos.filter (fun p => p.event_id == e.id)).length
    share_link := some (generate_share_link e.id) }

/-- FastAPI `Query(ge=1)` / `Query(ge=1, le=100)` validation of the
pagination parameters, rejected with 422 before the handler runs. -/
def pageParamsValid (page page_size : Nat) : Bool :=
  1 ≤ page && 1 ≤ page_size && page_size ≤ 100

/-- `events.list_events` (GET `/events`): resolve the host, then
paginate the host's events. -/
def list_events (db : DB) (info : UserInfo) (page page_size : Nat) :
    DB × Except Http EventListResponse :=
  if ¬ pageParamsValid page page_size then (db, .error .unprocessableEntity) else
  match get_or_create_user db info with
  | (db₁, .error _) => (db₁, .error .internalError)
  | (db₁, .ok host) =>
    let evs := db₁.events.filter (fun e => e.host_id == host.id)
    let total := evs.length
    let offset := (page - 1) * page_size
    let sel := (evs.drop offset).take page_size
    (db₁, .ok
      { events := sel.map (event_to_response db₁)
        total := total
        page := page
        page_size := page_size
        has_more := offset + sel.length < total })

/-- The row filter of the bulk update: the event id is in the request
and the caller is the host. -/
def bulkHit (req : BulkActionRequest) (user_id : String) (e : Event) : Bool :=
  req.event_ids.contains e.id && e.host_id == user_id

/-- The per-action row change of `bulk_actions_on_events`. -/
def bulkApply (action : String) (e : Event) : Event :=
  if action == "archive" then { e with is_archived := true }
  else if action == "activate" then { e with is_active := true }
  else { e with is_active := false }

/-- `events.bulk_actions_on_events` (POST `/events/actions/bulk`):
validate the action name, then issue one set-based update over the rows
whose id is in the request and whose host is the caller; the returned
number is the matched row count. -/
def bulk_actions_on_events (db : DB) (user_id : String) (req : BulkActionRequest) :
    DB × Except Http Nat :=
  if ¬ (req.action == "archive" || req.action == "activate" || req.action == "deactivate") then
    (db, .error .badRequest)
  else
    ({ db with events :=
        db.events.map (fun e => if bulkHit req user_id e then bulkApply req.action e else e) },
     .ok (db.events.filter (bulkHit req user_id)).length)

/-- The fixed quota ceiling of `upload_event_cover_image`:
`1 * 1024 * 1024 * 1024` bytes. -/
def MAX_UPLOAD_SIZE_PER_USER : Nat := 1 * 1024 * 1024 * 1024

/-- External CDN thumbnail URL built by
`cloudinary.CloudinaryImage(public_id).build_url(...)`, abstracted as a
function of the public id. -/
def buildThumbUrl (public_id : String) : String :=
  "https://res.cloudinary.com/thumb/" ++ public_id

/-- `events.upload_event_cover_image` (POST `/events/{id}/cover`):
ownership, image content-type check, quota gate against the 1 GB
ceiling (413 reporting the current usage rounded to two-decimal GiB and
the 1 GB maximum), then the external upload (`uploadResult`; `none`
models a failed upload or a missing `secure_url`, surfaced as 500) and
the commit of the three cover columns. -/
def upload_event_cover_image (db : DB) (user_id event_id : String)
    (content_type : String) (file_size : Nat) (uploadResult : Option UploadResult) :
    DB × Except Http Event :=
  match verify_event_ownership db event_id user_id with
  | .error h => (db, .error h)
  | .ok event =>
    if ¬ pyStartsWith content_type "image/" then (db, .error .badRequest) else
    let current := get_user_upload_size db user_id
    if current + (file_size : Int) > (MAX_UPLOAD_SIZE_PER_USER : Int) then
      (db, .error (.payloadTooLarge (round2GiBHundredths current) 1))
    else
      match uploadResult with
      | none => (db, .error .internalError)
      | some r =>
        let event' : Event :=
          { event with
              cover_image_url := some r.secure_url
              cover_thumbnail_url := some (buildThumbUrl r.public_id)
              cover_image_file_size := some (toString file_size) }
        ({ db with events := updateFirst (fun e => e.id == event_id) event' db.events },
         .ok event')

/-! ## Public helpers (`src/app/routers/public.py`) -/

/-- `public.get_event_by_slug`: the event must exist (the event id is
the slug), be active, and not be archived; otherwise 404. -/
def get_event_by_slug (db : DB) (slug : String) : Except Http Event :=
  match db.events.find? (fun e => e.id == slug && e.is_active && !e.is_archived) with
  | none => .error .notFound
  | some e => .ok e

/-- `public.verify_event_password`: `if not event.password: return True`
(Python truthiness: a null or empty stored password disables the gate),
otherwise plain string equality. -/
def verify_event_password (event : Event) (password : String) : Bool :=
  if ¬ pyTruthy event.password then true
  else event.password == some password

/-- `public.get_public_event_info` (GET `/public/events/{slug}`): public
projection of an event; counts only approved photos and exposes only
`has_password = (password is not None)`. -/
def get_public_event_info (db : DB) (slug : String) : Except Http PublicEventResponse :=
  match get_event_by_slug db slug with
  | .error h => .error h
  | .ok event =>
    .ok
      { id := event.id
        name := event.name
        description := event.description
        date := event.date
        cover_image_url := event.cover_image_url
        has_password := event.password.isSome
        photo_count :=
          (db.photos.filter (fun p => p.event_id == event.id && p.approved)).length
        is_active := event.is_active }

/-- Insert a photo into a list that is kept sorted by `uploaded_at`
descending. -/
def insertByUploadedAtDesc (p : Photo) : List Photo → List Photo
  | [] => [p]
  | q :: qs =>
    if q.uploaded_at < p.uploaded_at then p :: q :: qs else q :: insertByUploadedAtDesc p qs

/-- `ORDER BY uploaded_at DESC` realised as an insertion sort (the order
among equal timestamps is unspecified by SQL). -/
def sortByUploadedAtDesc (l : List Photo) : List Photo :=
  l.foldr insertByUploadedAtDesc []

/-- `public.get_public_event_photos` (GET `/public/events/{slug}/photos`):
approved photos of a public event, newest first, paginated. -/
def get_public_event_photos (db : DB) (slug : String) (page page_size : Nat) :
    Except Http PhotoListResponse :=
  if ¬ pageParamsValid page page_size then .error .unprocessableEntity else
  match get_event_by_slug db slug with
  | .error h => .error h
  | .ok event =>
    let l := sortByUploadedAtDesc
      (db.photos.filter (fun p => p.event_id == event.id && p.approved))
    let total := l.length
    let offset := (page - 1) * page_size
    let sel := (l.drop offset).take page_size
    .ok
      { photos := sel
        total := total
        page := page
        page_size := page_size
        has_more := offset + sel.length < total }

/-- `public.verify_event_password_endpoint`
(POST `/public/events/{slug}/verify-password`): resolve the event, then
answer; the check is stateless — the database comes back unchanged and
no token or session is recorded anywhere. -/
def verify_event_password_endpoint (db : DB) (slug : String) (password : String) :
    DB × Except Http Unit :=
  (db,
    match get_event_by_slug db slug with
    | .error h => .error h
    | .ok event =>
      if ¬ pyTruthy event.password then .ok ()
      else if verify_event_password event password then .ok ()
      else .error .unauthorized)

/-- The request-gating checks of `public.upload_public_photo`: resolve
the event; when it has a (truthy) password, reject a missing (falsy)
request password with 401 and a wrong one with 401; then the image
content-type, the 10 MB cap and the empty-file check. -/
def upload_public_photo_checks (db : DB) (slug : String) (content_type : String)
    (file_size : Nat) (password : Option String) : Except Http Event :=
  match get_event_by_slug db slug with
  | .error h => .error h
  | .ok event =>
    if pyTruthy event.password ∧ ¬ pyTruthy password then .error .unauthorized
    else if pyTruthy event.password ∧ ¬ verify_event_password event (password.getD "") then
      .error .unauthorized
    else if ¬ pyStartsWith content_type "image/" then .error .badRequest
    else if file_size > 10 * 1024 * 1024 then .error .badRequest
    else if file_size == 0 then .error .badRequest
    else .ok event

/-- `public.upload_public_photo` (POST `/public/events/{slug}/photos`):
after the checks, insert the new photo row: placeholder storage URLs
from the generated `photo_id` (an external input here), `approved =
False` and `uploaded_by = None`; no `file_size` is passed to the model,
so that column stays null. -/
def upload_public_photo (db : DB) (slug : String) (content_type : String)
    (file_size : Nat) (filename : String) (caption : Option String)
    (password : Option String) (photo_id : String) (now : Nat) :
    DB × Except Http Photo :=
  match upload_public_photo_checks db slug content_type file_size password with
  | .error h => (db, .error h)
  | .ok event =>
    let url := "https://storage.example.com/photos/" ++ photo_id ++ "/" ++ filename
    let thumbnail_url :=
      "https://storage.example.com/photos/" ++ photo_id ++ "/thumb_" ++ filename
    let p : Photo :=
      { id := photo_id
        event_id := event.id
        url := url
        thumbnail_url := some thumbnail_url
        caption := caption
        approved := false
        uploaded_at := now
        uploaded_by := none
        file_size := none }
    ({ db with photos := db.photos ++ [p] }, .ok p)

/-! ## Photo moderation (`src/app/routers/photos.py`) -/

/-- The uploader condition of the notification guard in
`photos.update_photo`:
`photo.uploaded_by and photo.uploaded_by != event.host_id` — the
uploader must be truthy (non-null, non-empty) and differ from the host
id. -/
def notifCond (event : Event) (p : Photo) : Bool :=
  match p.uploaded_by with
  | none => false
  | some s => s != "" && s != event.host_id

/-- Field-by-field application of the partial update
(`request.dict(exclude_unset=True)`, fields in declaration order). -/
def applyUpdate (p : Photo) (req : UpdatePhotoRequest) : Photo :=
  let p1 := match req.caption with
    | some c => { p with caption := c }
    | none => p
  match req.approved with
  | some a => { p1 with approved := a }
  | none => p1

/-- `photos.update_photo` (PATCH `/events/{eid}/photos/{pid}`):
ownership check, event re-fetch, photo fetch, merge-patch, commit; then,
when the `approved` field was present and the uploader condition holds,
compare old and new approval and dispatch the matching e-mail inside a
`try` whose `except` swallows and logs send failures (`sendFails` is the
external outcome of the dispatch; the computed send outcome is discarded
exactly as the handler discards the caught exception).  Returns the
committed state, the response, and the dispatch attempts made. -/
def update_photo (db : DB) (user_id event_id photo_id : String)
    (req : UpdatePhotoRequest) (sendFails : Bool) :
    DB × Except Http Photo × List Notification :=
  match verify_event_ownership db event_id user_id with
  | .error h => (db, .error h, [])
  | .ok _ =>
    match db.events.find? (fun e => e.id == event_id) with
    | none => (db, .error .notFound, [])
    | some event =>
      match db.photos.find? (fun p => p.id == photo_id && p.event_id == event_id) with
      | none => (db, .error .notFound, [])
      | some photo =>
        let old_approved_status := photo.approved
        let photo' := applyUpdate photo req
        let db' : DB :=
          { db with photos :=
              (updateFirst (fun p => p.id == photo_id && p.event_id == event_id) photo'
                db.photos) }
        let notifs : List Notification :=
          if req.approved.isSome ∧ notifCond event photo' then
            if old_approved_status ≠ photo'.approved then
              [if photo'.approved then
                 .approvedEmail ((photo'.uploaded_by).getD "") event.name photo'.url
               else
                 .rejectedEmail ((photo'.uploaded_by).getD "") event.name]
            else []
          else []
        let _sendOutcome : Except Unit Unit :=
          if sendFails ∧ notifs ≠ [] then .error () else .ok ()
        (db', .ok photo', notifs)

/-- Claim-side definition (refinement target), following the claim
wording for quota accounting: sum, over the photo file sizes attributed
to the user, the cover-image file sizes of the user's events, and the
user's avatar file size, every size value that is present and parseable
as an integer, with unparseable or absent sizes contributing exactly
zero. -/
def claimUserUsage (db : DB) (uid : String) : Int :=
  ((db.photos.filter (fun p => p.uploaded_by == some uid)).map
    (fun p => ((p.file_size.bind pyInt).getD 0))).sum
  + ((db.events.filter (fun e => e.host_id == uid)).map
    (fun e => ((e.cover_image_file_size.bind pyInt).getD 0))).sum
  + (match db.users.find? (fun u => u.id == uid) with
     | some u => (u.avatar_file_size.bind pyInt).getD 0
     | none => 0)

/-- Rewrite every event's password (presence-preserving) and host id
through arbitrary functions; used to state that the public projection
depends on neither secret. -/
def scrubEvents (f g : String → String) (db : DB) : DB :=
  { db with events :=
      db.events.map (fun e => { e with password := e.password.map f, host_id := g e.host_id }) }

/-- `photos.get_event_photos` (GET `/events/{eid}/photos`): the host
view, all photos of the owned event, paginated, no imposed order. -/
def get_event_photos (db : DB) (user_id event_id : String) (page page_size : Nat) :
    Except Http PhotoListResponse :=
  if ¬ pageParamsValid page page_size then .error .unprocessableEntity else
  match verify_event_ownership db event_id user_id with
  | .error h => .error h
  | .ok _ =>
    let l := db.photos.filter (fun p => p.event_id == event_id)
    let total := l.length
    let offset := (page - 1) * page_size
    let sel := (l.drop offset).take page_size
    .ok
      { photos := sel
        total := total
        page := page
        page_size := page_size
        has_more := offset + sel.length < total }

/-! ## Concrete rows used by the witness and counterexample theorems -/

/-- A minimal active, unarchived, password-free event owned by `h`. -/
def baseEvent : Event :=
  { id := "E", host_id := "h", name := "Party", description := none, date := 0,
    password := none, cover_image_url := none, cover_thumbnail_url := none,
    cover_image_file_size := none, is_active := true, is_archived := false,
    created_at := 0, updated_at := none }

/-- A minimal unapproved photo of event `E`. -/
def basePhoto : Photo :=
  { id := "P", event_id := "E", url := "u", thumbnail_url := none, caption := none,
    approved := false, uploaded_at := 0, uploaded_by := none, file_size := none }

/-- A photo whose `uploaded_by` is the empty string: non-null and
different from the host id, yet falsy in Python. -/
def phC1 : Photo := { basePhoto with uploaded_by := some "" }

def dbC1 : DB := ⟨[], [baseEvent], [phC1]⟩

/-- A photo uploaded by an identifiable non-host address. -/
def phW1 : Photo := { basePhoto with uploaded_by := some "alice@example.com" }

def dbW1 : DB := ⟨[], [baseEvent], [phW1]⟩

def dbW2 : DB :=
  ⟨[], [{ baseEvent with password := some "secret" }],
   [{ basePhoto with approved := true },
    { basePhoto with id := "Q", approved := false }]⟩

/-- The expected public projection of the `dbW2` event. -/
def respW2 : PublicEventResponse :=
  { id := "E"
    name := "Party"
    description := none
    date := 0
    cover_image_url := none
    has_password := true
    photo_count := 1
    is_active := true }

/-- The expected public photo listing of the `dbW2` event. -/
def respPhotosW2 : PhotoListResponse :=
  { photos := [{ basePhoto with approved := true }]
    total := 1
    page := 1
    page_size := 20
    has_more := false }

def dbW3 : DB :=
  ⟨[], [baseEvent, { baseEvent with id := "A", is_archived := true },
        { baseEvent with id := "I", is_active := false }], []⟩

/-- The quota-fixture event: host `u`, a 600 MiB cover. -/
def evW4 : Event :=
  { baseEvent with host_id := "u", cover_image_file_size := some "629145600" }

def dbW4 : DB :=
  ⟨[⟨"u", "u@example.com", none, none⟩], [evW4],
   [{ basePhoto with
        approved := true, uploaded_by := some "u", file_size := some "524288000" }]⟩

def dbW5 : DB :=
  ⟨[⟨"u", "u@example.com", none, some "100"⟩],
   [{ baseEvent with host_id := "u", cover_image_file_size := some "2048" }],
   [{ basePhoto with uploaded_by := some "u", file_size := some "1000" },
    { basePhoto with id := "P2", uploaded_by := some "u", file_size := some "garbage" },
    { basePhoto with id := "P3", uploaded_by := some "u", file_size := none }]⟩

def dbW6 : DB :=
  ⟨[], [{ baseEvent with id := "A" }, { baseEvent with id := "B" },
        { baseEvent with id := "C", host_id := "other" }], []⟩

def reqW6 : BulkActionRequest := ⟨["A", "B", "C"], "archive"⟩

def dbC7 : DB := ⟨[⟨"X", "a@example.com", none, none⟩], [], []⟩

def infoC7 : UserInfo := ⟨"X", "b@example.com", none⟩

def dbW7 : DB := ⟨[⟨"Y", "a@example.com", some "Al", none⟩], [], []⟩

def infoW7 : UserInfo := ⟨"Z", "z@example.com", some "Zed"⟩

/-- Photo number `i` of the fifteen-photo pagination fixture. -/
def mkP (i : Nat) : Photo :=
  { basePhoto with id := "p" ++ toString i, approved := true, uploaded_at := i }

def dbW8 : DB := ⟨[], [baseEvent], (List.range 15).map mkP⟩

def hostInfoW8 : UserInfo := ⟨"h", "h@example.com", none⟩

/-- Expected page 2 (size 10) of the fifteen approved photos, newest
first. -/
def respW8p2 : PhotoListResponse :=
  { photos := [mkP 4, mkP 3, mkP 2, mkP 1, mkP 0],
    total := 15, page := 2, page_size := 10, has_more := false }

/-- Expected page 1 (size 10) of the fifteen approved photos, newest
first. -/
def respW8p1 : PhotoListResponse :=
  { photos := [mkP 14, mkP 13, mkP 12, mkP 11, mkP 10, mkP 9, mkP 8, mkP 7, mkP 6, mkP 5],
    total := 15, page := 1, page_size := 10, has_more := true }

/-- An event whose stored password is the empty string. -/
def evC9 : Event := { baseEvent with password := some "" }

def evW9 : Event := { baseEvent with password := some "secret" }

def dbW9 : DB := ⟨[], [evW9], []⟩

def dbW10 : DB := ⟨[], [baseEvent], []⟩

/-- The photo row created by the witness public upload. -/
def photoW10 : Photo :=
  { id := "pid"
    event_id := "E"
    url := "https://storage.example.com/photos/pid/a.png"
    thumbnail_url := some "https://storage.example.com/photos/pid/thumb_a.png"
    caption := none
    approved := false
    uploaded_at := 3
    uploaded_by := none
    file_size := none }

/-! ## Helper lemmas -/

theorem find?_pred {α : Type _} (p : α → Bool) (l : List α) (a : α)
    (h : l.find? p = some a) : p a = true :=
  List.find?_some h

/-- A failed check aborts `upload_public_photo` with the same error and
an unchanged database. -/
theorem upload_checks_error (db : DB) (slug ct : String) (fs : Nat) (fn : String)
    (cap pwd : Option String) (pid : String) (now : Nat) (h : Http)
    (hch : upload_public_photo_checks db slug ct fs pwd = .error h) :
    upload_public_photo db slug ct fs fn cap pwd pid now = (db, .error h) := by
  unfold upload_public_photo
  rw [hch]

/-- A falsy request password against a (truthy-)protected event fails
the upload checks with 401. -/
theorem checks_unauthorized_of_missing (db : DB) (slug ct : String) (fs : Nat)
    (pwd : Option String) (e : Event) (hres : get_event_by_slug db slug = .ok e)
    (htr : pyTruthy e.password = true) (hfalsy : pyTruthy pwd = false) :
    upload_public_photo_checks db slug ct fs pwd = .error .unauthorized := by
  unfold upload_public_photo_checks
  rw [hres]
  dsimp only
  rw [if_pos ⟨htr, by simp [hfalsy]⟩]

/-- A truthy but rejected request password against a protected event
fails the upload checks with 401. -/
theorem checks_unauthorized_of_wrong (db : DB) (slug ct : String) (fs : Nat)
    (pwd : Option String) (e : Event) (hres : get_event_by_slug db slug = .ok e)
    (htr : pyTruthy e.password = true) (htr2 : pyTruthy pwd = true)
    (hver : verify_event_password e (pwd.getD "") = false) :
    upload_public_photo_checks db slug ct fs pwd = .error .unauthorized := by
  unfold upload_public_photo_checks
  rw [hres]
  dsimp only
  rw [if_neg (by simp [htr2])]
  rw [if_pos ⟨htr, by simp [hver]⟩]

/-- The merge-patch never touches `uploaded_by` (the request model only
has `caption` and `approved`). -/
theorem applyUpdate_uploaded_by (p : Photo) (r : UpdatePhotoRequest) :
    (applyUpdate p r).uploaded_by = p.uploaded_by := by
  unfold applyUpdate
  cases r.caption <;> cases r.approved <;> rfl

/-- Unfolding of the uploader condition of the notification guard. -/
theorem notifCond_iff (e : Event) (p : Photo) :
    notifCond e p = true ↔ ∃ s, p.uploaded_by = some s ∧ s ≠ "" ∧ s ≠ e.host_id := by
  unfold notifCond
  cases p.uploaded_by with
  | none => simp
  | some s => simp [bne_iff_ne]

theorem mem_insertByUploadedAtDesc {q p : Photo} {l : List Photo}
    (h : q ∈ insertByUploadedAtDesc p l) : q = p ∨ q ∈ l := by
  induction l with
  | nil =>
    simp [insertByUploadedAtDesc] at h
    exact Or.inl h
  | cons x xs ih =>
    unfold insertByUploadedAtDesc at h
    by_cases hc : x.uploaded_at < p.uploaded_at
    · rw [if_pos hc] at h
      rcases List.mem_cons.mp h with h1 | h2
      · exact Or.inl h1
      · exact Or.inr h2
    · rw [if_neg hc] at h
      rcases List.mem_cons.mp h with h1 | h2
      · exact Or.inr (List.mem_cons.mpr (Or.inl h1))
      · rcases ih h2 with ha | hb
        · exact Or.inl ha
        · exact Or.inr (List.mem_cons.mpr (Or.inr hb))

theorem mem_sortByUploadedAtDesc {q : Photo} {l : List Photo}
    (h : q ∈ sortByUploadedAtDesc l) : q ∈ l := by
  induction l with
  | nil => exact h
  | cons x xs ih =>
    unfold sortByUploadedAtDesc at h
    rw [List.foldr_cons] at h
    rcases mem_insertByUploadedAtDesc h with h1 | h2
    · exact List.mem_cons.mpr (Or.inl h1)
    · exact List.mem_cons.mpr (Or.inr (ih h2))

/-! ## Claim C3: public event resolution -/

/-- C3.  For every event, resolving it through the public path
(`get_event_by_slug`) fails with NotFound whenever the event is absent,
has `is_active = false`, or has `is_archived = true` (no password input
exists on this path); it returns the event exactly when the event
exists, is active, and is not archived. -/
theorem c3_public_event_resolution :
    ∀ (db : DB) (slug : String), (db.events.map Event.id).Nodup →
    ((∀ e ∈ db.events, e.id ≠ slug) → get_event_by_slug db slug = .error .notFound) ∧
    (∀ e ∈ db.events, e.id = slug →
      (get_event_by_slug db slug = .ok e ↔ e.is_active = true ∧ e.is_archived = false) ∧
      ((e.is_active = false ∨ e.is_archived = true) →
        get_event_by_slug db slug = .error .notFound)) := by
  intro db slug hN
  have hq : ∀ x : Event, (x.id == slug && x.is_active && !x.is_archived) = true ↔
      (x.id = slug ∧ x.is_active = true ∧ x.is_archived = false) := by
    intro x
    constructor
    · intro h
      simp only [Bool.and_eq_true, beq_iff_eq, Bool.not_eq_true'] at h
      exact ⟨h.1.1, h.1.2, h.2⟩
    · intro ⟨h1, h2, h3⟩
      simp [h1, h2, h3]
  constructor
  · intro habs
    unfold get_event_by_slug
    have hnone : db.events.find? (fun e => e.id == slug && e.is_active && !e.is_archived)
        = none := by
      rw [List.find?_eq_none]
      intro x hx hxq
      exact habs x hx ((hq x).mp hxq).1
    rw [hnone]
  · intro e he hid
    have hokdir : get_event_by_slug db slug = .ok e →
        e.is_active = true ∧ e.is_archived = false := by
      intro hok
      unfold get_event_by_slug at hok
      cases hfind : db.events.find? (fun e => e.id == slug && e.is_active && !e.is_archived) with
      | none => rw [hfind] at hok; exact absurd hok (by simp)
      | some x =>
        rw [hfind] at hok
        have hx : x = e := by injection hok
        have hpx := find?_pred _ _ _ hfind
        have := (hq x).mp hpx
        rw [hx] at this
        exact ⟨this.2.1, this.2.2⟩
    have hnegdir : e.is_active = true ∧ e.is_archived = false →
        get_event_by_slug db slug = .ok e := by
      intro ⟨h2, h3⟩
      unfold get_event_by_slug
      cases hfind : db.events.find? (fun e => e.id == slug && e.is_active && !e.is_archived) with
      | none =>
        rw [List.find?_eq_none] at hfind
        exact absurd ((hq e).mpr ⟨hid, h2, h3⟩) (hfind e he)
      | some x =>
        have hmem := List.mem_of_find?_eq_some hfind
        have hpx := find?_pred _ _ _ hfind
        have hxq := (hq x).mp hpx
        have : x = e :=
          List.inj_on_of_nodup_map hN hmem he (by rw [hxq.1, hid])
        rw [this]
    refine ⟨⟨hokdir, hnegdir⟩, ?_⟩
    intro hbad
    unfold get_event_by_slug
    have hnone : db.events.find? (fun e => e.id == slug && e.is_active && !e.is_archived)
        = none := by
      rw [List.find?_eq_none]
      intro x hx hxq
      have hxe : x = e :=
        List.inj_on_of_nodup_map hN hx he (by rw [((hq x).mp hxq).1, hid])
      rw [hxe] at hxq
      have := (hq e).mp hxq
      cases hbad with
      | inl h => rw [this.2.1] at h; cases h
      | inr h => rw [this.2.2] at h; cases h
    rw [hnone]

/-- Witness for C3: on the three-event fixture, the active unarchived
event resolves, the archived one and an unknown slug give 404. -/
theorem c3_witness :
    get_event_by_slug dbW3 "E" = .ok baseEvent ∧
    get_event_by_slug dbW3 "A" = .error .notFound ∧
    get_event_by_slug dbW3 "Z" = .error .notFound := by
  refine ⟨?_, ?_, ?_⟩
  · exact (((c3_public_event_resolution dbW3 "E" (by decide)).2 baseEvent (by decide)
      (by decide)).1).mpr (by decide)
  · exact ((c3_public_event_resolution dbW3 "A" (by decide)).2
      { baseEvent with id := "A", is_archived := true } (by decide) (by decide)).2
      (Or.inr (by decide))
  · exact (c3_public_event_resolution dbW3 "Z" (by decide)).1 (by decide)

/-! ## Claim C9: the password gate -/

/-- Counterexample for C9 as stated: an event whose stored password is
the empty string has a password set (`isSome`), yet
`verify_event_password` accepts a supplied string different from the
stored one, contradicting the claimed exact string equality. -/
theorem c9_counterexample :
    verify_event_password evC9 "x" = true ∧ evC9.password.isSome = true ∧
    evC9.password ≠ some "x" := by decide

/-- C9 (amended).  `verify_event_password` returns true whenever the
event's password is unset or empty, and otherwise exactly when the
supplied string equals the stored password; a public photo upload to a
password-protected event re-checks the password on that same request,
rejecting with 401 when it is missing (null or empty) or fails the
check, and the verify-password endpoint records no state (no token or
session). -/
theorem c9_password_gate :
    ∀ (event : Event) (pw : String) (db : DB) (slug ct : String) (fs : Nat) (fn : String)
      (cap pwd : Option String) (pid : String) (now : Nat),
    (verify_event_password event pw = true ↔
      (event.password = none ∨ event.password = some "" ∨ event.password = some pw)) ∧
    (∀ e, get_event_by_slug db slug = .ok e → pyTruthy e.password = true →
      ((pwd = none ∨ pwd = some "") →
        upload_public_photo db slug ct fs fn cap pwd pid now = (db, .error .unauthorized)) ∧
      (∀ s, pwd = some s → verify_event_password e s = false →
        upload_public_photo db slug ct fs fn cap pwd pid now = (db, .error .unauthorized))) ∧
    (verify_event_password_endpoint db slug pw).1 = db := by
  intro event pw db slug ct fs fn cap pwd pid now
  refine ⟨?_, ?_, rfl⟩
  · rcases hp : event.password with _ | s
    · simp [verify_event_password, pyTruthy, hp]
    · by_cases hs : s = ""
      · subst hs
        simp [verify_event_password, pyTruthy, hp]
      · simp [verify_event_password, pyTruthy, hp, hs]
  · intro e hres htr
    constructor
    · intro hpwd
      have hfalsy : pyTruthy pwd = false := by
        rcases hpwd with h | h <;> rw [h] <;> rfl
      exact upload_checks_error db slug ct fs fn cap pwd pid now .unauthorized
        (checks_unauthorized_of_missing db slug ct fs pwd e hres htr hfalsy)
    · intro s hs hver
      by_cases hse : s = ""
      · have hfalsy : pyTruthy pwd = false := by rw [hs, hse]; rfl
        exact upload_checks_error db slug ct fs fn cap pwd pid now .unauthorized
          (checks_unauthorized_of_missing db slug ct fs pwd e hres htr hfalsy)
      · have htr2 : pyTruthy pwd = true := by
          rw [hs]; unfold pyTruthy; simp [hse]
        have hverpwd : verify_event_password e (pwd.getD "") = false := by
          rw [hs]; exact hver
        exact upload_checks_error db slug ct fs fn cap pwd pid now .unauthorized
          (checks_unauthorized_of_wrong db slug ct fs pwd e hres htr htr2 hverpwd)

/-- Witness for C9: the gate accepts the stored password, rejects a
wrong one, a protected upload without a password gets 401, and the
verify endpoint leaves the database unchanged. -/
theorem c9_witness :
    verify_event_password evW9 "secret" = true ∧
    verify_event_password evW9 "wrong" = false ∧
    upload_public_photo dbW9 "E" "image/png" 5 "a.png" none none "pid" 3 =
      (dbW9, .error .unauthorized) ∧
    (verify_event_password_endpoint dbW9 "E" "guess").1 = dbW9 := by
  have h := c9_password_gate evW9 "secret" dbW9 "E" "image/png" 5 "a.png" none none "pid" 3
  have h2 := c9_password_gate evW9 "wrong" dbW9 "E" "image/png" 5 "a.png" none none "pid" 3
  refine ⟨?_, ?_, ?_, ?_⟩
  · exact h.1.mpr (Or.inr (Or.inr (by decide)))
  · cases hb : verify_event_password evW9 "wrong" with
    | false => rfl
    | true => exact absurd (h2.1.mp hb) (by decide)
  · exact (h.2.1 evW9 (by decide) (by decide)).1 (Or.inl rfl)
  · exact h.2.2

/-! ## Claim C1: moderation notifications -/

/-- Counterexample for C1 as stated: on an owned event, a payload
containing `approved` flips the stored value from false to true for a
photo whose `uploaded_by` is non-null (`some ""`) and different from the
host id, yet no notification is dispatched (the empty string is falsy in
the guard `photo.uploaded_by and ...`). -/
theorem c1_counterexample :
    (update_photo dbC1 "h" "E" "P" ⟨none, some true⟩ false).2.2 = [] ∧
    (update_photo dbC1 "h" "E" "P" ⟨none, some true⟩ false).2.1 =
      .ok { phC1 with approved := true } ∧
    phC1.uploaded_by ≠ none ∧
    phC1.uploaded_by ≠ some baseEvent.host_id ∧
    phC1.approved = false ∧
    (⟨none, some true⟩ : UpdatePhotoRequest).approved.isSome = true := by
  decide

/-- C1 (amended).  For every photo update on an owned event that
succeeds, the new state is committed, and a moderation notification is
dispatched exactly once if and only if (a) the `approved` field was
present in the payload, (b) the stored `approved` value actually
changed, and (c) `uploaded_by` is non-null, non-empty, and different
from the event's host id; the dispatch outcome (`sendFails`) never
affects the committed state, the response, or the attempt list, so a
failed dispatch still leaves the moderation update committed. -/
theorem c1_moderation_notification :
    ∀ (db : DB) (uid eid pid : String) (req : UpdatePhotoRequest) (sendFails : Bool)
      (event : Event) (photo : Photo),
    db.events.find? (fun e => e.id == eid) = some event →
    db.photos.find? (fun p => p.id == pid && p.event_id == eid) = some photo →
    event.host_id = uid →
    (update_photo db uid eid pid req sendFails).2.1 = .ok (applyUpdate photo req) ∧
    (update_photo db uid eid pid req sendFails).1 =
      { db with photos :=
          (updateFirst (fun p => p.id == pid && p.event_id == eid) (applyUpdate photo req)
            db.photos) } ∧
    ((update_photo db uid eid pid req sendFails).2.2 ≠ [] ↔
      (req.approved.isSome = true ∧ photo.approved ≠ (applyUpdate photo req).approved ∧
        ∃ s, photo.uploaded_by = some s ∧ s ≠ "" ∧ s ≠ event.host_id)) ∧
    (update_photo db uid eid pid req sendFails).2.2.length ≤ 1 ∧
    update_photo db uid eid pid req true = update_photo db uid eid pid req false := by
  intro db uid eid pid req sendFails event photo hfindE hfindP hhost
  have hown : verify_event_ownership db eid uid = .ok event := by
    unfold verify_event_ownership
    rw [hfindE]
    simp [hhost]
  have hu : ∀ b, update_photo db uid eid pid req b =
      ({ db with photos :=
          (updateFirst (fun p => p.id == pid && p.event_id == eid) (applyUpdate photo req)
            db.photos) },
       .ok (applyUpdate photo req),
       if req.approved.isSome = true ∧ notifCond event (applyUpdate photo req) = true then
         if photo.approved ≠ (applyUpdate photo req).approved then
           [if (applyUpdate photo req).approved then
              Notification.approvedEmail (((applyUpdate photo req).uploaded_by).getD "")
                event.name (applyUpdate photo req).url
            else
              Notification.rejectedEmail (((applyUpdate photo req).uploaded_by).getD "")
                event.name]
         else []
       else []) := by
    intro b
    unfold update_photo
    rw [hown, hfindE, hfindP]
  rw [hu sendFails]
  refine ⟨rfl, rfl, ?_, ?_, (hu true).trans (hu false).symm⟩
  · by_cases h1 : req.approved.isSome = true ∧ notifCond event (applyUpdate photo req) = true
    · rw [if_pos h1]
      by_cases h2 : photo.approved ≠ (applyUpdate photo req).approved
      · rw [if_pos h2]
        simp only [ne_eq, reduceCtorEq, not_false_eq_true, true_iff]
        obtain ⟨s, hub, hs1, hs2⟩ := (notifCond_iff event (applyUpdate photo req)).mp h1.2
        rw [applyUpdate_uploaded_by] at hub
        exact ⟨h1.1, h2, s, hub, hs1, hs2⟩
      · rw [if_neg h2]
        have h2' : photo.approved = (applyUpdate photo req).approved := not_not.mp h2
        constructor
        · intro h; exact absurd rfl h
        · rintro ⟨-, hb, -⟩; exact absurd h2' hb
    · rw [if_neg h1]
      constructor
      · intro h; exact absurd rfl h
      · rintro ⟨ha, -, s, hub, hs1, hs2⟩
        refine absurd ⟨ha, (notifCond_iff event (applyUpdate photo req)).mpr ⟨s, ?_, hs1, hs2⟩⟩ h1
        rw [applyUpdate_uploaded_by]
        exact hub
  · split
    · split
      · simp
      · simp
    · simp

/-- Witness for C1: an identifiable non-host uploader whose photo is
approved gets exactly one approved-email attempt, and the result is the
same whether or not the dispatch fails. -/
theorem c1_witness :
    (update_photo dbW1 "h" "E" "P" ⟨none, some true⟩ false).2.2 ≠ [] ∧
    (update_photo dbW1 "h" "E" "P" ⟨none, some true⟩ false).2.2.length ≤ 1 ∧
    update_photo dbW1 "h" "E" "P" ⟨none, some true⟩ true =
      update_photo dbW1 "h" "E" "P" ⟨none, some true⟩ false := by
  have h := c1_moderation_notification dbW1 "h" "E" "P" ⟨none, some true⟩ false
    baseEvent phW1 (by decide) (by decide) (by decide)
  exact ⟨h.2.2.1.mpr ⟨by decide, by decide, "alice@example.com", by decide, by decide,
    by decide⟩, h.2.2.2.1, h.2.2.2.2⟩

/-! ## Claim C2: the public view hides secrets and unapproved photos -/

/-- C2.  The public event view is invariant under arbitrary rewriting of
every stored password (presence-preserving) and host id, so it exposes
neither beyond the boolean `has_password` (the response type itself has
no password or host field); its `photo_count` counts only `approved =
true` photos of the event; and the public photo listing returns only
approved photos, for any page and page size. -/
theorem c2_public_view :
    ∀ (db : DB) (slug : String) (page page_size : Nat) (f g : String → String),
    get_public_event_info (scrubEvents f g db) slug = get_public_event_info db slug ∧
    (∀ r, get_public_event_info db slug = .ok r →
      r.photo_count =
        (db.photos.filter (fun p => p.event_id == r.id && p.approved)).length ∧
      ∃ e, db.events.find? (fun e => e.id == slug && e.is_active && !e.is_archived) = some e ∧
        r.has_password = e.password.isSome ∧ r.id = e.id) ∧
    (∀ r p, get_public_event_photos db slug page page_size = .ok r → p ∈ r.photos →
      p.approved = true) := by
  intro db slug page page_size f g
  refine ⟨?_, ?_, ?_⟩
  · unfold get_public_event_info get_event_by_slug scrubEvents
    rw [List.find?_map]
    have hq : ((fun e : Event => e.id == slug && e.is_active && !e.is_archived) ∘
        (fun e : Event => { e with password := e.password.map f, host_id := g e.host_id })) =
        (fun e : Event => e.id == slug && e.is_active && !e.is_archived) := by
      funext e; rfl
    rw [hq]
    cases hfind : db.events.find? (fun e => e.id == slug && e.is_active && !e.is_archived) with
    | none => rfl
    | some e => simp
  · intro r hr
    unfold get_public_event_info at hr
    cases hfind : get_event_by_slug db slug with
    | error h => rw [hfind] at hr; cases hr
    | ok e =>
      rw [hfind] at hr
      have hre : r =
          { id := e.id
            name := e.name
            description := e.description
            date := e.date
            cover_image_url := e.cover_image_url
            has_password := e.password.isSome
            photo_count :=
              (db.photos.filter (fun p => p.event_id == e.id && p.approved)).length
            is_active := e.is_active } := by
        injection hr with h; exact h.symm
      subst hre
      refine ⟨rfl, e, ?_, rfl, rfl⟩
      unfold get_event_by_slug at hfind
      cases hf2 : db.events.find? (fun e => e.id == slug && e.is_active && !e.is_archived) with
      | none => rw [hf2] at hfind; cases hfind
      | some x => rw [hf2] at hfind; injection hfind with h; rw [h]
  · intro r p hr hp
    unfold get_public_event_photos at hr
    by_cases hval : pageParamsValid page page_size = true
    · rw [if_neg (by simp [hval])] at hr
      cases hres : get_event_by_slug db slug with
      | error h => rw [hres] at hr; cases hr
      | ok e =>
        rw [hres] at hr
        have hrp : r.photos =
            ((sortByUploadedAtDesc
              (db.photos.filter (fun p => p.event_id == e.id && p.approved))).drop
                ((page - 1) * page_size)).take page_size := by
          injection hr with h; rw [← h]
        rw [hrp] at hp
        have h1 := List.take_subset _ _ hp
        have h2 := List.drop_subset _ _ h1
        have h3 := mem_sortByUploadedAtDesc h2
        have h4 := List.of_mem_filter h3
        exact (Bool.and_eq_true _ _ |>.mp h4).2
    · rw [if_pos (by simp [hval])] at hr
      cases hr

/-- Witness for C2: on a password-protected event with one approved and
one unapproved photo, rewriting passwords and host ids does not change
the public view, the view reports `photo_count = 1`, and the listed
photo is approved. -/
theorem c2_witness :
    get_public_event_info (scrubEvents (fun _ => "XX") (fun _ => "YY") dbW2) "E" =
      get_public_event_info dbW2 "E" ∧
    get_public_event_info dbW2 "E" = .ok respW2 ∧
    respW2.photo_count =
      (dbW2.photos.filter (fun p => p.event_id == "E" && p.approved)).length ∧
    ({ basePhoto with approved := true } : Photo).approved = true := by
  have h := c2_public_view dbW2 "E" 1 20 (fun _ => "XX") (fun _ => "YY")
  refine ⟨h.1, by decide, ?_, ?_⟩
  · exact (h.2.1 respW2 (by decide)).1
  · exact h.2.2 respPhotosW2 { basePhoto with approved := true } (by decide) (by decide)

/-! ## Claim C4: the cover-upload quota gate -/

/-- C4.  For a cover-image upload by the event's host with an image
content type: when the current usage plus the incoming size exceeds the
fixed 1 GiB ceiling, the request fails with 413 reporting the current
usage rounded to two-decimal GiB and the 1 GB ceiling, and the database
is unchanged; otherwise the quota gate passes (no 413 is possible). -/
theorem c4_cover_upload_quota :
    ∀ (db : DB) (uid eid ct : String) (size : Nat) (ur : Option UploadResult) (event : Event),
    verify_event_ownership db eid uid = .ok event →
    pyStartsWith ct "image/" = true →
    (get_user_upload_size db uid + (size : Int) > (MAX_UPLOAD_SIZE_PER_USER : Int) →
      upload_event_cover_image db uid eid ct size ur =
        (db, .error (.payloadTooLarge (round2GiBHundredths (get_user_upload_size db uid)) 1))) ∧
    (get_user_upload_size db uid + (size : Int) ≤ (MAX_UPLOAD_SIZE_PER_USER : Int) →
      ∀ c m, (upload_event_cover_image db uid eid ct size ur).2 ≠
        .error (.payloadTooLarge c m)) := by
  intro db uid eid ct size ur event hown hct
  constructor
  · intro hover
    unfold upload_event_cover_image
    rw [hown]
    dsimp only
    rw [if_neg (by simp [hct])]
    rw [if_pos hover]
  · intro hunder c m
    unfold upload_event_cover_image
    rw [hown]
    dsimp only
    rw [if_neg (by simp [hct])]
    rw [if_neg (not_lt.mpr hunder)]
    cases ur with
    | none => simp
    | some r => simp

/-- Witness for C4, the quota example: 500 MiB of photos plus a 600 MiB
cover make 1,153,433,600 bytes; adding a 50 MiB cover exceeds
1,073,741,824 and is rejected with 413 reporting 1.07 GiB of current
usage against the 1 GB ceiling, leaving the database unchanged. -/
theorem c4_witness :
    get_user_upload_size dbW4 "u" = 1153433600 ∧
    upload_event_cover_image dbW4 "u" "E" "image/png" 52428800 none =
      (dbW4, .error (.payloadTooLarge 107 1)) ∧
    round2GiBHundredths 1153433600 = 107 := by
  have h := c4_cover_upload_quota dbW4 "u" "E" "image/png" 52428800 none evW4
    (by decide) (by decide)
  refine ⟨by decide, ?_, by decide⟩
  rw [h.1 (by decide)]
  decide

/-! ## Claim C6: bulk event actions -/

/-- The matched-row count of the bulk update equals the number of
distinct requested ids that name an event owned by the caller. -/
theorem count_hits_eq_ids (req : BulkActionRequest) (uid : String) (events : List Event)
    (hN : (events.map Event.id).Nodup) :
    (events.filter (bulkHit req uid)).length =
    ((req.event_ids.dedup).filter
      (fun i => events.any (fun e => e.id == i && e.host_id == uid))).length := by
  have hsub : (events.filter (bulkHit req uid)).Sublist events := List.filter_sublist events
  have n1 : ((events.filter (bulkHit req uid)).map Event.id).Nodup :=
    (hsub.map Event.id).nodup hN
  have n2 : ((req.event_ids.dedup).filter
      (fun i => events.any (fun e => e.id == i && e.host_id == uid))).Nodup :=
    (List.nodup_dedup req.event_ids).filter _
  have hmem : ∀ a, a ∈ (events.filter (bulkHit req uid)).map Event.id ↔
      a ∈ (req.event_ids.dedup).filter
        (fun i => events.any (fun e => e.id == i && e.host_id == uid)) := by
    intro a
    simp only [List.mem_map, List.mem_filter, List.mem_dedup, List.any_eq_true,
      Bool.and_eq_true, beq_iff_eq, bulkHit]
    constructor
    · rintro ⟨e, ⟨he, hc, hh⟩, hid⟩
      subst hid
      refine ⟨?_, e, he, rfl, hh⟩
      simpa using hc
    · rintro ⟨ha, e, he, hid, hh⟩
      subst hid
      exact ⟨e, ⟨he, by simpa using ha, hh⟩, rfl⟩
  calc (events.filter (bulkHit req uid)).length
      = ((events.filter (bulkHit req uid)).map Event.id).length := (List.length_map _ _).symm
    _ = _ := (((List.perm_ext_iff_of_nodup n1 n2).mpr hmem)).length_eq

/-- C6.  An unknown action name fails the whole request with a
validation error and no mutation; a valid action is applied to exactly
the requested-and-owned rows, the reported count is the number of
distinct requested ids owned by the caller, and every other row
(unowned or nonexistent id) is untouched, with no per-id error. -/
theorem c6_bulk_actions :
    ∀ (db : DB) (uid : String) (req : BulkActionRequest),
    (db.events.map Event.id).Nodup →
    (¬ (req.action = "archive" ∨ req.action = "activate" ∨ req.action = "deactivate") →
      bulk_actions_on_events db uid req = (db, .error .badRequest)) ∧
    ((req.action = "archive" ∨ req.action = "activate" ∨ req.action = "deactivate") →
      (bulk_actions_on_events db uid req).2 =
        .ok ((req.event_ids.dedup.filter
          (fun i => db.events.any (fun e => e.id == i && e.host_id == uid))).length) ∧
      (bulk_actions_on_events db uid req).1.events =
        db.events.map (fun e => if bulkHit req uid e then bulkApply req.action e else e) ∧
      (∀ e ∈ db.events, bulkHit req uid e = false →
        e ∈ (bulk_actions_on_events db uid req).1.events) ∧
      (bulk_actions_on_events db uid req).1.users = db.users ∧
      (bulk_actions_on_events db uid req).1.photos = db.photos) := by
  intro db uid req hN
  constructor
  · intro hbad
    push_neg at hbad
    obtain ⟨h1, h2, h3⟩ := hbad
    unfold bulk_actions_on_events
    rw [if_pos (by simp [h1, h2, h3])]
  · intro hgood
    have hval : (req.action == "archive" || req.action == "activate" ||
        req.action == "deactivate") = true := by
      rcases hgood with h | h | h <;> simp [h]
    unfold bulk_actions_on_events
    rw [if_neg (by simp [hval])]
    refine ⟨?_, rfl, ?_, rfl, rfl⟩
    · rw [count_hits_eq_ids req uid db.events hN]
    · intro e he hmiss
      exact List.mem_map.mpr ⟨e, he, by simp [hmiss]⟩

/-- Witness for C6: with events A and B owned by the caller and C owned
by someone else, archiving `[A, B, C]` reports 2 affected rows, leaves C
untouched, and an unknown action name is rejected with no mutation. -/
theorem c6_witness :
    (bulk_actions_on_events dbW6 "h" reqW6).2 = .ok 2 ∧
    { baseEvent with id := "C", host_id := "other" } ∈
      (bulk_actions_on_events dbW6 "h" reqW6).1.events ∧
    bulk_actions_on_events dbW6 "h" ⟨["A"], "explode"⟩ = (dbW6, .error .badRequest) := by
  have h := c6_bulk_actions dbW6 "h" reqW6 (by decide)
  have h2 := c6_bulk_actions dbW6 "h" ⟨["A"], "explode"⟩ (by decide)
  refine ⟨((h.2 (Or.inl rfl)).1).trans (by decide), ?_, h2.1 (by decide)⟩
  exact (h.2 (Or.inl rfl)).2.2.1 { baseEvent with id := "C", host_id := "other" }
    (by decide) (by decide)

/-! ## Claim C7: resolving a verified subject -/

theorem updateFirst_map {α β : Type _} (f : α → β) (q : α → Bool) (new x : α)
    (l : List α) (hf : l.find? q = some x) (hfx : f new = f x) :
    (updateFirst q new l).map f = l.map f := by
  induction l with
  | nil => cases hf
  | cons a as ih =>
    unfold updateFirst
    by_cases hq : q a = true
    · rw [if_pos hq]
      have hx : x = a := by
        rw [List.find?_cons_of_pos _ hq] at hf
        injection hf with h
        exact h.symm
      simp [List.map_cons, hfx, hx]
    · rw [if_neg hq]
      have hf' : as.find? q = some x := by
        rw [List.find?_cons_of_neg _ hq] at hf
        exact hf
      simp [List.map_cons, ih hf']

/-- Counterexample for C7 as stated: resolving a subject whose email is
unseen but whose external id is already taken by another user makes the
insert violate the `users.id` primary key, so the operation fails —
"never fails" does not hold. -/
theorem c7_counterexample :
    get_or_create_user dbC7 infoC7 = (dbC7, .error .integrityError) ∧
    (∀ u ∈ dbC7.users, u.email ≠ infoC7.email) := by decide

/-- C7 (amended).  Resolution is by email: when a user with the email
exists, the stored id is returned unchanged (no id or email of any row
is mutated) and the name is refreshed exactly when the incoming name is
non-null and differs; when no user with the email exists and the
external id is free, a fresh user keyed by the external id is inserted
and returned.  The only failure is an unseen email together with an
already-taken external id (primary-key violation on insert). -/
theorem c7_user_resolution :
    ∀ (db : DB) (info : UserInfo),
    (∀ u, db.users.find? (fun x => x.email == info.email) = some u →
      (get_or_create_user db info).2 =
        .ok { u with
          name := if info.name.isSome = true ∧ u.name ≠ info.name then info.name
            else u.name } ∧
      (get_or_create_user db info).1.users.map User.id = db.users.map User.id ∧
      (get_or_create_user db info).1.users.map User.email = db.users.map User.email) ∧
    (db.users.find? (fun x => x.email == info.email) = none →
      (∀ u ∈ db.users, u.id ≠ info.uid) →
      get_or_create_user db info =
        ({ db with users := db.users ++ [⟨info.uid, info.email, info.name, none⟩] },
         .ok ⟨info.uid, info.email, info.name, none⟩)) ∧
    (∀ err, (get_or_create_user db info).2 = .error err →
      db.users.find? (fun x => x.email == info.email) = none ∧
      ∃ u ∈ db.users, u.id = info.uid) := by
  intro db info
  refine ⟨?_, ?_, ?_⟩
  · intro u hfind
    unfold get_or_create_user
    rw [hfind]
    dsimp only
    by_cases hc : u.name ≠ info.name ∧ info.name.isSome = true
    · rw [if_pos hc]
      refine ⟨?_, ?_, ?_⟩
      · rw [if_pos ⟨hc.2, hc.1⟩]
      · exact updateFirst_map User.id _ _ u db.users hfind rfl
      · exact updateFirst_map User.email _ _ u db.users hfind rfl
    · rw [if_neg hc]
      have hcond : ¬ (info.name.isSome = true ∧ u.name ≠ info.name) := fun h => hc ⟨h.2, h.1⟩
      refine ⟨?_, rfl, rfl⟩
      rw [if_neg hcond]
  · intro hnone hnoid
    have hany : ¬ db.users.any (fun u => u.id == info.uid) = true := by
      intro h
      obtain ⟨u, hu, hq⟩ := List.any_eq_true.mp h
      exact hnoid u hu (by simpa using hq)
    have hfindnu : (db.users ++ [(⟨info.uid, info.email, info.name, none⟩ : User)]).find?
        (fun u => u.id == info.uid) = some ⟨info.uid, info.email, info.name, none⟩ := by
      rw [List.find?_append]
      have h1 : db.users.find? (fun u => u.id == info.uid) = none := by
        rw [List.find?_eq_none]
        intro x hx hxq
        exact hnoid x hx (by simpa using hxq)
      rw [h1]
      simp
    unfold get_or_create_user
    rw [hnone]
    dsimp only
    rw [if_neg hany]
    simp only [hfindnu, Option.getD_some]
  · intro err herr
    unfold get_or_create_user at herr
    cases hfind : db.users.find? (fun x => x.email == info.email) with
    | some u =>
      rw [hfind] at herr
      dsimp only at herr
      by_cases hc : u.name ≠ info.name ∧ info.name.isSome = true
      · rw [if_pos hc] at herr
        simp at herr
      · rw [if_neg hc] at herr
        simp at herr
    | none =>
      rw [hfind] at herr
      dsimp only at herr
      by_cases hany : db.users.any (fun u => u.id == info.uid) = true
      · refine ⟨rfl, ?_⟩
        obtain ⟨u, hu, hq⟩ := List.any_eq_true.mp hany
        exact ⟨u, hu, by simpa using hq⟩
      · rw [if_neg hany] at herr
        simp at herr

/-- Witness for C7: a fresh email with a free external id is inserted
and returned; an existing email with a different id and a new non-null
name keeps its id and refreshes the name. -/
theorem c7_witness :
    get_or_create_user dbW7 infoW7 =
      ({ dbW7 with users := dbW7.users ++ [⟨"Z", "z@example.com", some "Zed", none⟩] },
       .ok ⟨"Z", "z@example.com", some "Zed", none⟩) ∧
    (get_or_create_user dbW7 ⟨"Q", "a@example.com", some "New"⟩).2 =
      .ok ⟨"Y", "a@example.com", some "New", none⟩ := by
  have h := c7_user_resolution dbW7 infoW7
  have h2 := c7_user_resolution dbW7 ⟨"Q", "a@example.com", some "New"⟩
  refine ⟨h.2.1 (by decide) (by decide), ?_⟩
  exact ((h2.1 ⟨"Y", "a@example.com", some "Al", none⟩ (by decide)).1).trans (by decide)

/-! ## Claim C8: pagination -/

/-- C8.  For every paginated listing (host events, host photos, public
photos) with `page ≥ 1` and `page_size ∈ [1,100]`: the slice starts at
offset `(page − 1) × page_size`, at most `page_size` items are returned,
and `has_more = (offset + returned_count) < total`. -/
theorem c8_pagination :
    ∀ (db : DB) (info : UserInfo) (uid eid slug : String) (page page_size : Nat),
    1 ≤ page → 1 ≤ page_size → page_size ≤ 100 →
    (∀ db₁ host r, get_or_create_user db info = (db₁, .ok host) →
      list_events db info page page_size = (db₁, .ok r) →
      r.events.length ≤ page_size ∧
      r.events = (((db₁.events.filter (fun e => e.host_id == host.id)).drop
          ((page - 1) * page_size)).take page_size).map (event_to_response db₁) ∧
      r.total = (db₁.events.filter (fun e => e.host_id == host.id)).length ∧
      r.has_more = decide ((page - 1) * page_size + r.events.length < r.total)) ∧
    (∀ r, get_event_photos db uid eid page page_size = .ok r →
      r.photos.length ≤ page_size ∧
      r.photos = ((db.photos.filter (fun p => p.event_id == eid)).drop
          ((page - 1) * page_size)).take page_size ∧
      r.total = (db.photos.filter (fun p => p.event_id == eid)).length ∧
      r.has_more = decide ((page - 1) * page_size + r.photos.length < r.total)) ∧
    (∀ r, get_public_event_photos db slug page page_size = .ok r →
      r.photos.length ≤ page_size ∧
      r.has_more = decide ((page - 1) * page_size + r.photos.length < r.total)) := by
  intro db info uid eid slug page page_size hp hs1 hs2
  have hval : pageParamsValid page page_size = true := by
    unfold pageParamsValid
    simp [hp, hs1, hs2]
  refine ⟨?_, ?_, ?_⟩
  · intro db₁ host r hgc hle
    unfold list_events at hle
    rw [if_neg (by simp [hval]), hgc] at hle
    dsimp only at hle
    rw [Prod.mk.injEq] at hle
    have hr : r =
        { events := (((db₁.events.filter (fun e => e.host_id == host.id)).drop
            ((page - 1) * page_size)).take page_size).map (event_to_response db₁)
          total := (db₁.events.filter (fun e => e.host_id == host.id)).length
          page := page
          page_size := page_size
          has_more := decide ((page - 1) * page_size +
            (((db₁.events.filter (fun e => e.host_id == host.id)).drop
              ((page - 1) * page_size)).take page_size).length <
            (db₁.events.filter (fun e => e.host_id == host.id)).length) } := by
      have := hle.2
      injection this with h
      exact h.symm
    subst hr
    refine ⟨?_, rfl, rfl, ?_⟩
    · rw [List.length_map, List.length_take]
      exact min_le_left _ _
    · simp [List.length_map]
  · intro r hle
    unfold get_event_photos at hle
    rw [if_neg (by simp [hval])] at hle
    cases hown : verify_event_ownership db eid uid with
    | error h => rw [hown] at hle; cases hle
    | ok e =>
      rw [hown] at hle
      dsimp only at hle
      have hr : r =
          { photos := ((db.photos.filter (fun p => p.event_id == eid)).drop
              ((page - 1) * page_size)).take page_size
            total := (db.photos.filter (fun p => p.event_id == eid)).length
            page := page
            page_size := page_size
            has_more := decide ((page - 1) * page_size +
              (((db.photos.filter (fun p => p.event_id == eid)).drop
                ((page - 1) * page_size)).take page_size).length <
              (db.photos.filter (fun p => p.event_id == eid)).length) } := by
        injection hle with h
        exact h.symm
      subst hr
      refine ⟨?_, rfl, rfl, rfl⟩
      rw [List.length_take]
      exact min_le_left _ _
  · intro r hle
    unfold get_public_event_photos at hle
    rw [if_neg (by simp [hval])] at hle
    cases hres : get_event_by_slug db slug with
    | error h => rw [hres] at hle; cases hle
    | ok e =>
      rw [hres] at hle
      dsimp only at hle
      have hr : r =
          { photos := ((sortByUploadedAtDesc
              (db.photos.filter (fun p => p.event_id == e.id && p.approved))).drop
                ((page - 1) * page_size)).take page_size
            total := (sortByUploadedAtDesc
              (db.photos.filter (fun p => p.event_id == e.id && p.approved))).length
            page := page
            page_size := page_size
            has_more := decide ((page - 1) * page_size +
              (((sortByUploadedAtDesc
                (db.photos.filter (fun p => p.event_id == e.id && p.approved))).drop
                  ((page - 1) * page_size)).take page_size).length <
              (sortByUploadedAtDesc
                (db.photos.filter (fun p => p.event_id == e.id && p.approved))).length) } := by
        injection hle with h
        exact h.symm
      subst hr
      refine ⟨?_, rfl⟩
      rw [List.length_take]
      exact min_le_left _ _

/-- Witness for C8, the fifteen-photo example: page 2 of size 10 returns
5 items with `has_more = false`; page 1 returns 10 items with
`has_more = true`; and the returned count is bounded by the page size. -/
theorem c8_witness :
    get_public_event_photos dbW8 "E" 2 10 = .ok respW8p2 ∧
    respW8p2.photos.length = 5 ∧
    respW8p2.has_more = false ∧
    get_public_event_photos dbW8 "E" 1 10 = .ok respW8p1 ∧
    respW8p1.photos.length = 10 ∧
    respW8p1.has_more = true ∧
    respW8p2.photos.length ≤ 10 := by
  have h := c8_pagination dbW8 hostInfoW8 "h" "E" "E" 2 10 (by decide) (by decide) (by decide)
  refine ⟨by decide, by decide, by decide, by decide, by decide, by decide, ?_⟩
  exact (h.2.2 respW8p2 (by decide)).1

/-! ## Claim C5: quota accounting -/

/-- SQL `SUM` skipping `NULL` sizes equals the per-row parse-or-zero
sum. -/
theorem sum_sizes_eq (m : List Photo) :
    ((m.filterMap Photo.file_size).map sqlCastInt).sum =
    (m.map (fun p => ((p.file_size.bind pyInt).getD 0))).sum := by
  induction m with
  | nil => rfl
  | cons p ps ih =>
    cases hp : p.file_size with
    | none => simp [List.filterMap_cons, hp, ih]
    | some s => simp [List.filterMap_cons, hp, ih, sqlCastInt]

/-- Under unique user ids, a user known to be present matches exactly
one row. -/
theorem filter_id_singleton (l : List User) (x : String)
    (hN : (l.map User.id).Nodup) (hex : ∃ u ∈ l, u.id = x) :
    (l.filter (fun u => u.id == x)).length = 1 := by
  induction l with
  | nil =>
    obtain ⟨u, hu, _⟩ := hex
    cases hu
  | cons a as ih =>
    rw [List.map_cons, List.nodup_cons] at hN
    by_cases ha : a.id = x
    · rw [List.filter_cons_of_pos (by simpa using ha)]
      have hnil : as.filter (fun u => u.id == x) = [] := by
        rw [List.filter_eq_nil_iff]
        intro u hu hq
        exact hN.1 (List.mem_map.mpr ⟨u, hu, by rw [beq_iff_eq.mp hq, ha]⟩)
      simp [hnil]
    · rw [List.filter_cons_of_neg (by simpa using ha)]
      apply ih hN.2
      obtain ⟨u, hu, hx⟩ := hex
      rcases List.mem_cons.mp hu with h1 | h2
      · rw [h1] at hx
        exact absurd hx ha
      · exact ⟨u, h2, hx⟩

/-- The joined cover-size sum equals the per-owned-event parse-or-zero
sum, given unique user ids and referential integrity of `host_id`. -/
theorem coverSum_eq (events : List Event) (users : List User) (uid : String)
    (hN : (users.map User.id).Nodup)
    (hFK : ∀ e ∈ events, ∃ u ∈ users, u.id = e.host_id) :
    (events.map (fun e =>
      ((users.filter (fun u => u.id == e.host_id && u.id == uid)).length : Int) *
        ((e.cover_image_file_size.map sqlCastInt).getD 0))).sum =
    ((events.filter (fun e => e.host_id == uid)).map
      (fun e => ((e.cover_image_file_size.bind pyInt).getD 0))).sum := by
  induction events with
  | nil => rfl
  | cons e es ih =>
    have hFKe := hFK e (List.mem_cons_self e es)
    have hFK' : ∀ x ∈ es, ∃ u ∈ users, u.id = x.host_id :=
      fun x hx => hFK x (List.mem_cons_of_mem _ hx)
    rw [List.map_cons, List.sum_cons]
    by_cases hh : e.host_id = uid
    · have hflt : (users.filter (fun u => u.id == e.host_id && u.id == uid)) =
          users.filter (fun u => u.id == uid) := by
        apply List.filter_congr
        intro u _
        rw [hh, Bool.and_self]
      have hcnt : (users.filter (fun u => u.id == uid)).length = 1 := by
        apply filter_id_singleton users uid hN
        obtain ⟨u, hu, hid⟩ := hFKe
        exact ⟨u, hu, by rw [hid, hh]⟩
      rw [hflt, hcnt]
      rw [List.filter_cons_of_pos (by simpa using hh), List.map_cons, List.sum_cons]
      rw [ih hFK']
      congr 1
      cases hc : e.cover_image_file_size with
      | none => simp
      | some s => simp [sqlCastInt]
    · have hflt : users.filter (fun u => u.id == e.host_id && u.id == uid) = [] := by
        rw [List.filter_eq_nil_iff]
        intro u hu hq
        rw [Bool.and_eq_true] at hq
        exact hh ((beq_iff_eq.mp hq.1).symm.trans (beq_iff_eq.mp hq.2))
      rw [hflt]
      rw [List.filter_cons_of_neg (by simpa using hh)]
      rw [ih hFK']
      simp

/-- The avatar contribution equals the parse-or-zero of the found
user's avatar size (the falsy empty string also parses to zero). -/
theorem avatarSize_eq (db : DB) (uid : String) :
    avatarSize db uid =
      (match db.users.find? (fun u => u.id == uid) with
       | some u => ((u.avatar_file_size.bind pyInt).getD 0 : Int)
       | none => 0) := by
  unfold avatarSize
  cases hf : db.users.find? (fun u => u.id == uid) with
  | none => rfl
  | some u =>
    dsimp only
    cases ha : u.avatar_file_size with
    | none => rfl
    | some s =>
      dsimp only
      by_cases hs : s = ""
      · subst hs
        rfl
      · rw [if_neg (by simpa using hs)]
        rfl

/-- C5 (spec-modelled SQL cast).  Quota accounting is a total function
of the stored state (it cannot raise), and it equals the claim-side
description: the sum of all present-and-parseable photo, event-cover
and avatar sizes attributed to the user, with unparseable or absent
sizes contributing exactly zero — given unique user ids and the
spec-invariant that every event's host exists. -/
theorem c5_quota_accounting :
    ∀ (db : DB) (uid : String),
    (db.users.map User.id).Nodup →
    (∀ e ∈ db.events, ∃ u ∈ db.users, u.id = e.host_id) →
    get_user_upload_size db uid = claimUserUsage db uid := by
  intro db uid hN hFK
  unfold get_user_upload_size claimUserUsage photoSizeSum eventCoverSizeSum
  rw [sum_sizes_eq, coverSum_eq db.events db.users uid hN hFK, avatarSize_eq]

/-- Witness for C5: a user with a parseable photo size (1000), an
unparseable one ("garbage" → 0), an absent one (0), a cover of 2048 and
an avatar of 100 totals 3148, matching the claim-side sum. -/
theorem c5_witness :
    (dbW5.users.map User.id).Nodup ∧
    (∀ e ∈ dbW5.events, ∃ u ∈ dbW5.users, u.id = e.host_id) ∧
    get_user_upload_size dbW5 "u" = claimUserUsage dbW5 "u" ∧
    get_user_upload_size dbW5 "u" = 3148 := by
  exact ⟨by decide, by decide, c5_quota_accounting dbW5 "u" (by decide) (by decide), by decide⟩

/-! ## Claim C10: public uploads are unapproved and anonymous -/

/-- Moderation never rewrites any photo's `uploaded_by` (the update
request only carries `caption` and `approved`). -/
theorem update_photo_preserves_uploaded_by (db : DB) (uid eid pid : String)
    (req : UpdatePhotoRequest) (b : Bool) :
    (update_photo db uid eid pid req b).1.photos.map Photo.uploaded_by =
      db.photos.map Photo.uploaded_by := by
  unfold update_photo
  cases hown : verify_event_ownership db eid uid with
  | error h => rfl
  | ok e =>
    dsimp only
    cases hfe : db.events.find? (fun e => e.id == eid) with
    | none => rfl
    | some event =>
      dsimp only
      cases hfp : db.photos.find? (fun p => p.id == pid && p.event_id == eid) with
      | none => rfl
      | some photo =>
        dsimp only
        exact updateFirst_map Photo.uploaded_by _ _ photo db.photos hfp
          (applyUpdate_uploaded_by photo req)

/-- C10.  Every accepted public photo upload creates a record with
`approved = false` and `uploaded_by = None`; such a photo can never
satisfy the moderation-notification uploader condition (which needs a
truthy `uploaded_by`, something moderation never rewrites), and it
contributes nothing to any user's quota sum (which matches
`uploaded_by` against the user id). -/
theorem c10_public_upload :
    ∀ (db : DB) (slug ct : String) (fs : Nat) (fn : String) (cap pwd : Option String)
      (pid : String) (now : Nat) (db' : DB) (p : Photo),
    upload_public_photo db slug ct fs fn cap pwd pid now = (db', .ok p) →
    p.approved = false ∧
    p.uploaded_by = none ∧
    (∀ e : Event, notifCond e p = false) ∧
    (∀ uid, get_user_upload_size db' uid = get_user_upload_size db uid) ∧
    (∀ uid₂ eid₂ pid₂ req b,
      (update_photo db' uid₂ eid₂ pid₂ req b).1.photos.map Photo.uploaded_by =
        db'.photos.map Photo.uploaded_by) := by
  intro db slug ct fs fn cap pwd pid now db' p hup
  unfold upload_public_photo at hup
  cases hch : upload_public_photo_checks db slug ct fs pwd with
  | error h =>
    rw [hch] at hup
    dsimp only at hup
    rw [Prod.mk.injEq] at hup
    exact absurd hup.2 (by simp)
  | ok event =>
    rw [hch] at hup
    dsimp only at hup
    rw [Prod.mk.injEq] at hup
    obtain ⟨hdb, hok⟩ := hup
    injection hok with hp
    subst hp
    subst hdb
    refine ⟨rfl, rfl, fun e => rfl, ?_, fun uid₂ eid₂ pid₂ req b =>
      update_photo_preserves_uploaded_by _ uid₂ eid₂ pid₂ req b⟩
    intro uid
    unfold get_user_upload_size photoSizeSum eventCoverSizeSum avatarSize
    rw [List.filter_append]
    simp

/-- Witness for C10: a concrete accepted upload yields an unapproved,
anonymous photo that fails the notification condition and leaves the
quota sum unchanged. -/
theorem c10_witness :
    upload_public_photo dbW10 "E" "image/png" 5 "a.png" none none "pid" 3 =
      ({ dbW10 with photos := [photoW10] }, .ok photoW10) ∧
    photoW10.approved = false ∧
    photoW10.uploaded_by = none ∧
    notifCond baseEvent photoW10 = false ∧
    get_user_upload_size { dbW10 with photos := [photoW10] } "u" =
      get_user_upload_size dbW10 "u" := by
  have h := c10_public_upload dbW10 "E" "image/png" 5 "a.png" none none "pid" 3
    { dbW10 with photos := [photoW10] } photoW10 (by decide)
  exact ⟨by decide, h.1, h.2.1, h.2.2.1 baseEvent, h.2.2.2.1 "u"⟩

end PhotoLog
